import Mathlib

/-!
Shallow embedding of `src/pagelet.js` (bigpipe/pipe.js): the client-side
Pagelet controller.  Pure data is translated directly; the stateful methods
(`configure`, `destroy`, `processor`, `render`, `initialise`, `broadcast`,
the generated RPC stubs) become explicit state-passing functions returning
the successor state together with a trace of observable effects (event
emissions, substream/orchestrate writes, sandbox operations, pool release).
JavaScript `undefined`/`null` becomes `Option`; a thrown `TypeError` becomes
`none` at `Option` result type.  DOM specifics are abstracted to the data the
code reads from them (placeholder roots as a list of content strings, the
template fragment node as node type plus node value), matching the spec's
scoping of Renderer/DOM as an external collaborator.
-/

namespace BigPipe

/-- JavaScript values carried in packets and event arguments. -/
inductive Val where
  | null
  | num (n : Int)
  | str (s : String)
  | obj
  | pageletSelf
deriving DecidableEq

/-- A packet envelope on the substream / orchestrate channel.  Fields the
source reads or writes: `type`, `method`, `id`, `args`, `name`, and
`frag.view` (flattened to `fragView`).  Absent fields are `none`. -/
structure Packet where
  type : String
  method : Option String
  id : Option String
  args : Option (List Val)
  name : Option String
  fragView : Option String
deriving DecidableEq

/-- Observable side effects of the pagelet methods, in execution order. -/
inductive Effect where
  | emit (event : String) (args : List Val)
  | callHandler (h : Nat) (args : List Val)
  | pipeEmit (event : String) (args : List Val)
  | substreamOpen (name : String)
  | substreamWrite (p : Packet)
  | substreamEnd (p : Packet)
  | orchestrateWrite (p : Packet)
  | sandboxCreate (cid : Nat)
  | sandboxKill (cid : Nat)
  | sandboxRun (code : String)
  | domCleanup (remove : Bool)
  | assetLoadStart (assets : List String)
  | pipeFree
deriving DecidableEq

/-- One registered listener of the pagelet's own EventEmitter.  Handlers are
identified by an opaque `Nat` (distinct numbers model distinct closures);
`once` marks one-shot registration (eventemitter3 removes such a listener
when it fires). -/
structure Listener where
  event : String
  handler : Nat
  once : Bool
deriving DecidableEq

/-- The mutable instance state of one Pagelet (`src/pagelet.js` fields).
`placeholders` is `none` when the JS field is `null` (after `destroy`),
otherwise the list of placeholder-root contents.  `substream` records
whether `this.substream` is set.  `stubs` is the set of installed generated
RPC methods with the per-method closure counter of `rpcfactory`.
`sandboxNext` models the id supply of `sandbox.create()`. -/
structure PageletState where
  name : String
  id : Option Val
  placeholders : Option (List String)
  substream : Bool
  css : List String
  js : List String
  run : Option String
  code : Option String
  rpc : Option (List String)
  data : Option Val
  timeout : Nat
  container : Option Nat
  sandboxNext : Nat
  stubs : List (String × Nat)
  listeners : List Listener
deriving DecidableEq

/-- A fresh Pagelet as produced by the constructor: no field of the
configure phase is set yet. -/
def pageletInit : PageletState :=
  { name := "", id := none, placeholders := none, substream := false,
    css := [], js := [], run := none, code := none, rpc := none,
    data := none, timeout := 0, container := none, sandboxNext := 0,
    stubs := [], listeners := [] }

/-- eventemitter3 `emit`: every listener registered for `event` is invoked
in registration order with `args`; one-shot (`once`) listeners for the event
are removed.  The trace records the emission itself and each handler call. -/
def emitEvent (s : PageletState) (event : String) (args : List Val) :
    PageletState × List Effect :=
  let matched := s.listeners.filter (fun l => l.event == event)
  ({ s with listeners := s.listeners.filter (fun l => !(l.event == event && l.once)) },
    Effect.emit event args :: matched.map (fun l => Effect.callHandler l.handler args))

/-- eventemitter3 `once`: append a one-shot listener. -/
def onceListen (s : PageletState) (event : String) (h : Nat) : PageletState :=
  { s with listeners := s.listeners ++ [⟨event, h, true⟩] }

/-- `Pagelet.prototype.broadcast` (src/pagelet.js lines 308-316): emit the
event locally, then emit `name + "::" + event` on the parent pipe scope with
the pagelet itself prepended to the arguments. -/
def broadcast (s : PageletState) (event : String) (args : List Val) :
    PageletState × List Effect :=
  let r := emitEvent s event args
  (r.1, r.2 ++ [Effect.pipeEmit (s.name ++ "::" ++ event) (Val.pageletSelf :: args)])

/-- `Pagelet.prototype.render` (src/pagelet.js lines 358-389).  `html` is
`none` when the argument is `undefined`.  Returns `none` for the thrown
`TypeError` when `this.placeholders` is `null`; otherwise the new state, the
boolean return value, and the trace.  The falsy guard
`!this.placeholders.length || !html` rejects an empty placeholder list, a
missing argument and the empty string; on success every placeholder root's
content is replaced by `html` before the `render` broadcast. -/
def render (s : PageletState) (html : Option String) :
    Option (PageletState × Bool × List Effect) :=
  match s.placeholders with
  | none => none
  | some phs =>
    match html with
    | none => some (s, false, [])
    | some h =>
      if phs.length == 0 || h == "" then some (s, false, [])
      else
        let r := broadcast { s with placeholders := some (phs.map (fun _ => h)) }
          "render" [Val.str h]
        some (r.1, true, r.2)

/-- JavaScript `String.prototype.substring`: negative bounds clamp to 0,
bounds above the length clamp to the length, and the two bounds are swapped
when given in descending order. -/
def jsSubstring (s : String) (a b : Int) : String :=
  let len : Int := s.length
  let aN := (min (max a 0) len).toNat
  let bN := (min (max b 0) len).toNat
  String.mk ((s.data.take (max aN bN)).drop (min aN bN))

/-- The global regex replacement `.replace(/\\([\s\S]|$)/g, "$1")` of
`Pagelet.prototype.parse`: scanning left to right, a backslash followed by
any character collapses to that character, and a trailing backslash (the
`$` alternative) is dropped. -/
def unescapeChars : List Char → List Char
  | [] => []
  | c :: cs =>
    if c == '\\' then
      match cs with
      | [] => []
      | d :: rest => d :: unescapeChars rest
    else c :: unescapeChars cs

/-- The first child the parse step inspects: DOM `nodeType` (8 = comment)
and `nodeValue`. -/
structure ChildNode where
  nodeType : Nat
  nodeValue : String
deriving DecidableEq

/-- The element carrying `data-pagelet-fragment`, reduced to its first
child. -/
structure FragmentNode where
  firstChild : Option ChildNode
deriving DecidableEq

/-- `Pagelet.prototype.parse` (src/pagelet.js lines 398-413) applied to the
fragment element: returns `undefined` (`none`) unless the first child is a
comment node, else strips the first and last character of the comment text
with `substring(1, length - 1)` and un-escapes backslash sequences. -/
def parseNode (node : FragmentNode) : Option String :=
  match node.firstChild with
  | none => none
  | some c =>
    if c.nodeType != 8 then none
    else some (String.mk (unescapeChars
      (jsSubstring c.nodeValue 1 ((c.nodeValue.length : Int) - 1)).data))

/-- `parse` including the DOM lookup result: `none` models the `TypeError`
thrown when no fragment element was found (`this.$(...)[0]` is
`undefined`); the inner option is the return value. -/
def parseLookup (found : Option FragmentNode) : Option (Option String) :=
  found.map parseNode

/-- `Pagelet.prototype.initialise` (src/pagelet.js lines 290-299): broadcast
`initialise`, then hand client code to the sandbox only when `this.code` is
set.  (In the source the non-empty branch would additionally throw, since
`this.prepare` is not defined anywhere; the branch is unreachable because no
code path assigns `this.code`.) -/
def initialise (s : PageletState) : PageletState × List Effect :=
  let r := broadcast s "initialise" []
  match r.1.code with
  | none => r
  | some c => (r.1, r.2 ++ [Effect.sandboxRun c])

/-- `Pagelet.prototype.destroy` (src/pagelet.js lines 425-465): emit
`destroy`, clean the placeholder roots when the field is non-null, drop the
installed RPC stubs when `this.rpc` is a non-empty list, kill the sandbox
container when one is held, null `placeholders` and `container`, end the
substream with an `end` packet when one is set (the field itself is not
cleared), and unconditionally release the instance to the pool
(`this.pipe.free(this)`). -/
def destroy (s : PageletState) (remove : Bool) : PageletState × List Effect :=
  let r := emitEvent s "destroy" []
  let l2 : List Effect := match r.1.placeholders with
    | none => []
    | some _ => [Effect.domCleanup remove]
  let s2 := if (r.1.rpc.getD []).length != 0 then { r.1 with stubs := [] } else r.1
  let l3 : List Effect := match r.1.container with
    | none => []
    | some cid => [Effect.sandboxKill cid]
  let s3 := { s2 with placeholders := none, container := none }
  let l4 : List Effect :=
    if r.1.substream then [Effect.substreamEnd ⟨"end", none, none, none, none, none⟩] else []
  (s3, r.2 ++ l2 ++ l3 ++ l4 ++ [Effect.pipeFree])

/-- Modelled from the spec: `collection.array` from the repository file
`./collection` (not under src/) normalises the optional list fields of the
configuration input (`css?[]`, `js?[]` in the §6 schema) to an array, the
empty array when the field is absent. -/
def collectionArray (v : Option (List String)) : List String := v.getD []

/-- Property names found on `Pagelet.prototype` and its prototype chain
(eventemitter3's prototype and `Object.prototype`); the reserved names the
`method in Pagelet.prototype` guard of the stub installer checks. -/
def prototypeNames : List String :=
  ["configure", "submit", "post", "processor", "initialise", "broadcast",
   "$", "render", "parse", "destroy", "constructor",
   "on", "once", "off", "emit", "listeners", "addListener", "removeListener",
   "removeAllListeners", "setMaxListeners", "eventNames", "listenerCount",
   "hasOwnProperty", "isPrototypeOf", "propertyIsEnumerable", "toString",
   "toLocaleString", "valueOf"]

/-- Install or overwrite one generated stub (`pagelet[method] = function
rpcfactory ...`): the closure counter starts at 0. -/
def setStub (stubs : List (String × Nat)) (method : String) : List (String × Nat) :=
  if stubs.any (fun p => p.1 == method) then
    stubs.map (fun p => if p.1 == method then (method, 0) else p)
  else stubs ++ [(method, 0)]

/-- The stub-installation loop of `configure` (src/pagelet.js lines
99-117), iterating the server-declared RPC method names (`collection.each`
over `this.rpc`, a no-op on `undefined`): names colliding with
`prototypeNames` are skipped, every other name gets a fresh stub. -/
def installStubs (stubs : List (String × Nat)) : List String → List (String × Nat)
  | [] => stubs
  | m :: ms =>
    if prototypeNames.contains m then installStubs stubs ms
    else installStubs (setStub stubs m) ms

/-- The configuration input of `configure` (§6 schema
`\x7b id, remove?, css?, js?, run?, rpc?, data?, timeout? \x7d`). -/
structure ConfigData where
  id : Option Val
  remove : Bool
  css : Option (List String)
  js : Option (List String)
  run : Option String
  rpc : Option (List String)
  data : Option Val
  timeout : Option Nat
deriving DecidableEq

/-- Handler identity reserved for the form-submission teardown hook that
`submit()` registers with `this.once('destroy', ...)`. -/
def submitHookHandler : Nat := 0

/-- `Pagelet.prototype.configure` (src/pagelet.js lines 45-133) up to the
asynchronous boundary of `async.each`: bind the placeholders found for
`name` (passed in as `phs`, the DOM query result), store `id` and `name`;
on `data.remove` short-circuit into `destroy(true)`.  Otherwise `submit()`
registers its one-shot destroy hook (the DOM listener wiring is the
external FormBridge), the substream is opened (its `data` handler is
`processor`), the registration packet is written to the orchestrator, the
configuration fields are stored, a sandbox container is created, the RPC
stubs are installed, `configured` is broadcast, and the asset-loading phase
over `css ++ js` starts.  The completion callback of `async.each` is
modelled separately as `assetsDone`. -/
def configure (s : PageletState) (name : String) (d : ConfigData)
    (phs : List String) : PageletState × List Effect :=
  let s0 := { s with placeholders := some phs, id := d.id, name := name }
  if d.remove then destroy s0 true
  else
    let s1 := onceListen s0 "destroy" submitHookHandler
    let s2 := { s1 with substream := true }
    let cid := s2.sandboxNext
    let s3 := { s2 with
      css := collectionArray d.css,
      js := collectionArray d.js,
      run := d.run,
      rpc := d.rpc,
      data := d.data,
      container := some cid,
      sandboxNext := s2.sandboxNext + 1,
      timeout := d.timeout.getD 25000 }
    let s4 := { s3 with stubs := installStubs s3.stubs (d.rpc.getD []) }
    let r := broadcast s4 "configured" [Val.obj]
    (r.1,
      [Effect.substreamOpen name,
       Effect.orchestrateWrite ⟨"pagelet", none, none, none, some name, none⟩,
       Effect.sandboxCreate cid]
      ++ r.2 ++ [Effect.assetLoadStart (s3.css ++ s3.js)])

/-- The `done` callback handed to `async.each` (src/pagelet.js lines
126-132).  Modelled from the spec for the `./async` helper (not under
src/): per §4.4 it fires exactly once, with the first error on failure.
On an error: emit `error` and stop.  On success: emit `loaded`, render the
parsed initial fragment, then initialise.  `none` propagates a thrown
`TypeError` (fragment element missing, or `render` on a destroyed
pagelet). -/
def assetsDone (s : PageletState) (err : Option Val) (fragNode : Option FragmentNode) :
    Option (PageletState × List Effect) :=
  match err with
  | some e => some (emitEvent s "error" [e])
  | none =>
    let r1 := emitEvent s "loaded" []
    match parseLookup fragNode with
    | none => none
    | some html =>
      match render r1.1 html with
      | none => none
      | some (s2, _ok, l2) =>
        let r3 := initialise s2
        some (r3.1, r1.2 ++ l2 ++ r3.2)

/-- String coercion of a possibly-undefined id, as in `"rpc::" + packet.id`. -/
def jsShow : Option String → String
  | none => "undefined"
  | some s => s

/-- The property key a value becomes when used as eventemitter3 event name
(JavaScript object keys are strings). -/
def eventKey : Val → String
  | Val.str s => s
  | Val.null => "null"
  | Val.num n => if n < 0 then "-" ++ Nat.repr n.natAbs else Nat.repr n.toNat
  | Val.obj => "[object Object]"
  | Val.pageletSelf => "[object Object]"

/-- `Pagelet.prototype.processor` (src/pagelet.js lines 267-283): dispatch
one inbound substream packet by `type`.  `rpc` re-emits on the correlation
event `rpc::<id>`; `event` re-emits the carried event locally when the
argument list is non-empty; `fragment` renders the carried view (`none`
propagates render's `TypeError`); every other type is silently ignored. -/
def processor (s : PageletState) (p : Packet) :
    Option (PageletState × List Effect) :=
  if p.type == "rpc" then
    some (emitEvent s ("rpc::" ++ jsShow p.id) (p.args.getD []))
  else if p.type == "event" then
    match p.args with
    | some (e :: rest) => some (emitEvent s (eventKey e) rest)
    | _ => some (s, [])
  else if p.type == "fragment" then
    match render s p.fragView with
    | none => none
    | some (s2, _ok, l) => some (s2, l)
  else some (s, [])

/-- Look up the closure counter of an installed stub. -/
def lookupStub (stubs : List (String × Nat)) (method : String) : Option Nat :=
  (stubs.find? (fun p => p.1 == method)).map (fun p => p.2)

/-- Store a new closure-counter value for a stub. -/
def setStubCounter (stubs : List (String × Nat)) (method : String) (c : Nat) :
    List (String × Nat) :=
  stubs.map (fun p => if p.1 == method then (method, c) else p)

/-- One invocation of a generated RPC stub (`rpcfactory`, src/pagelet.js
lines 108-116) with plain arguments `args` and trailing callback `cb`:
increments the per-method counter, builds `id = method + "#" + counter`,
registers the callback as a one-shot listener on `rpc::<id>`, and writes
the request envelope on the substream.  `none` models the `TypeError` of
calling a method that was never installed. -/
def invokeStub (s : PageletState) (method : String) (args : List Val) (cb : Nat) :
    Option (PageletState × List Effect) :=
  match lookupStub s.stubs method with
  | none => none
  | some c =>
    let id := method ++ "#" ++ Nat.repr (c + 1)
    let s1 := { s with stubs := setStubCounter s.stubs method (c + 1) }
    some (onceListen s1 ("rpc::" ++ id) cb,
      [Effect.substreamWrite ⟨"rpc", some method, some id, some args, none, none⟩])

/-- A sequence of stub invocations of one method: each list element is the
plain argument list and the callback of one call. -/
def invokeStubSeq : PageletState → String → List (List Val × Nat) →
    Option (PageletState × List Effect)
  | s, _, [] => some (s, [])
  | s, m, c :: rest =>
    match invokeStub s m c.1 c.2 with
    | none => none
    | some (s1, l1) =>
      match invokeStubSeq s1 m rest with
      | none => none
      | some (s2, l2) => some (s2, l1 ++ l2)

/-- The correlation ids of the rpc request envelopes in a trace. -/
def writtenIds (l : List Effect) : List String :=
  l.filterMap (fun e => match e with
    | Effect.substreamWrite p => if p.type == "rpc" then p.id else none
    | _ => none)

/-- The locally emitted events of a trace, with their arguments. -/
def localEmits (l : List Effect) : List (String × List Val) :=
  l.filterMap (fun e => match e with
    | Effect.emit ev a => some (ev, a)
    | _ => none)

/-- The parent-scope (pipe) emissions of a trace, with their arguments. -/
def pipeEmits (l : List Effect) : List (String × List Val) :=
  l.filterMap (fun e => match e with
    | Effect.pipeEmit ev a => some (ev, a)
    | _ => none)

/-- The handler invocations of a trace. -/
def handlerCalls (l : List Effect) : List (Nat × List Val) :=
  l.filterMap (fun e => match e with
    | Effect.callHandler h a => some (h, a)
    | _ => none)

/-- Recognises a sandbox kill. -/
def isKill : Effect → Bool
  | Effect.sandboxKill _ => true
  | _ => false

/-- Recognises a sandbox code execution. -/
def isSandboxRun : Effect → Bool
  | Effect.sandboxRun _ => true
  | _ => false

/-- Recognises a substream open. -/
def isOpen : Effect → Bool
  | Effect.substreamOpen _ => true
  | _ => false

/-- Recognises the setup effects of a normal configuration: substream
open and writes, registration write, sandbox creation, asset-phase start. -/
def isSetupEffect : Effect → Bool
  | Effect.substreamOpen _ => true
  | Effect.substreamWrite _ => true
  | Effect.orchestrateWrite _ => true
  | Effect.sandboxCreate _ => true
  | Effect.assetLoadStart _ => true
  | _ => false

/-- Modelled from the spec: the server-side escaping step of the template
round-trip (the producer of the comment-wrapped fragment lives in the
BigPipe server, not under src/).  Per §8 the parse step must collapse every
backslash-escaped sequence back to the escaped character, so the escaper
backslash-escapes each backslash and each dash (the character that is
significant inside an HTML comment). -/
def escapeTemplate : List Char → List Char
  | [] => []
  | c :: cs =>
    if c == '\\' || c == '-' then '\\' :: c :: escapeTemplate cs
    else c :: escapeTemplate cs

/-- Decimal value of a digit character. -/
def digVal (c : Char) : Nat := c.toNat - '0'.toNat

/-- Decimal value of a digit string, most significant first. -/
def decValue (l : List Char) : Nat :=
  l.foldl (fun a c => 10 * a + digVal c) 0

/-- A concrete configuration input used by the concrete instances below. -/
def cfgHero : ConfigData :=
  ⟨some (Val.str "h1"), false, none, none, none, some ["foo"], none, none⟩

/-- A concrete configured pagelet named `hero` with one placeholder and one
generated stub `foo`. -/
def heroConfigured : PageletState :=
  (configure pageletInit "hero" cfgHero ["ph"]).1

/-- Recognises the registration write `\x7b type:"pagelet", name \x7d` to the
orchestrator. -/
def isRegistration : Effect → Bool
  | Effect.orchestrateWrite _ => true
  | _ => false

/-- A concrete configuration input that supplies client code in `run`. -/
def cfgRun : ConfigData :=
  ⟨some (Val.str "r1"), false, none, none, some "boot()", none, none, none⟩

/-- A concrete fragment element whose first child is a comment node. -/
def fragX : FragmentNode := ⟨some ⟨8, "-x-"⟩⟩

/-- The concrete outcome of a successful asset-loading phase on the
`run`-configured pagelet. -/
def resX : PageletState × List Effect :=
  (assetsDone (configure pageletInit "hero" cfgRun ["ph"]).1 none (some fragX)).getD
    (pageletInit, [])

/-- A concrete pagelet holding two pending one-shot RPC correlation
listeners, as after two invocations of a generated stub `foo`. -/
def stateRpc : PageletState :=
  { pageletInit with listeners :=
      [⟨"rpc::foo#1", 1, true⟩, ⟨"rpc::foo#2", 2, true⟩] }

end BigPipe


namespace BigPipe

/-! Helper lemmas: decimal rendering (`Nat.repr`) is injective, so the
generated correlation ids `method#<n>` are pairwise distinct. -/

theorem toDigitsCore_append (b : Nat) :
    ∀ fuel n ds, Nat.toDigitsCore b fuel n ds = Nat.toDigitsCore b fuel n [] ++ ds := by
  intro fuel
  induction fuel with
  | zero => intro n ds; simp [Nat.toDigitsCore]
  | succ f ih =>
    intro n ds
    simp only [Nat.toDigitsCore]
    split
    · simp
    · rw [ih (n / b) (Nat.digitChar (n % b) :: ds),
        ih (n / b) [Nat.digitChar (n % b)], List.append_assoc]
      simp

theorem digVal_digitChar (k : Nat) (hk : k < 10) :
    digVal (Nat.digitChar k) = k := by
  interval_cases k <;> rfl

theorem decValue_append_singleton (xs : List Char) (d : Char) :
    decValue (xs ++ [d]) = 10 * decValue xs + digVal d := by
  simp [decValue, List.foldl_append]

theorem decValue_toDigitsCore :
    ∀ n fuel, n < fuel → decValue (Nat.toDigitsCore 10 fuel n []) = n := by
  intro n
  induction n using Nat.strong_induction_on with
  | _ n ih =>
    intro fuel hf
    match fuel, hf with
    | f + 1, _ =>
      simp only [Nat.toDigitsCore]
      split
      · rename_i hdiv
        have hn : n < 10 := by
          by_contra hge
          rw [Nat.div_eq_zero_iff (by omega)] at hdiv
          omega
        simp [decValue, Nat.mod_eq_of_lt hn, digVal_digitChar n hn]
      · rename_i hdiv
        have h10 : 10 ≤ n := by
          by_contra hlt
          exact hdiv (Nat.div_eq_of_lt (by omega))
        have hdn : n / 10 < n := Nat.div_lt_self (by omega) (by omega)
        rw [toDigitsCore_append, decValue_append_singleton,
          ih (n / 10) hdn f (by omega),
          digVal_digitChar (n % 10) (Nat.mod_lt n (by omega))]
        exact Nat.div_add_mod n 10

theorem decValue_repr (n : Nat) : decValue (Nat.repr n).data = n := by
  have h := decValue_toDigitsCore n (n + 1) (Nat.lt_succ_self n)
  simpa [Nat.repr, Nat.toDigits, List.asString] using h

theorem natRepr_injective : Function.Injective Nat.repr := by
  intro m n h
  have hd : (Nat.repr m).data = (Nat.repr n).data := by rw [h]
  have := decValue_repr m
  rw [hd, decValue_repr n] at this
  exact this.symm

theorem string_append_cancel_left (a b c : String) (h : a ++ b = a ++ c) : b = c := by
  have hd : (a ++ b).data = (a ++ c).data := by rw [h]
  simp only [String.data_append] at hd
  have hbc := List.append_cancel_left hd
  cases b; cases c; exact congrArg String.mk hbc

theorem callId_injective (method : String) :
    Function.Injective (fun n : Nat => method ++ "#" ++ Nat.repr n) := by
  intro i j h
  have h1 : (method ++ "#") ++ Nat.repr i = (method ++ "#") ++ Nat.repr j := by
    simpa [String.append_assoc] using h
  exact natRepr_injective (string_append_cancel_left _ _ _ h1)

end BigPipe

namespace BigPipe

/-! Helper lemmas for the template round-trip (claim C7). -/

theorem unescapeChars_cons (c : Char) (cs : List Char) :
    unescapeChars (c :: cs) =
      if c == '\\' then
        (match cs with
         | [] => []
         | d :: rest => d :: unescapeChars rest)
      else c :: unescapeChars cs := by
  conv_lhs => rw [unescapeChars.eq_def]

theorem unescape_escape (l : List Char) :
    unescapeChars (escapeTemplate l) = l := by
  induction l with
  | nil => rfl
  | cons c cs ih =>
    by_cases h : c == '\\' || c == '-'
    · simp only [escapeTemplate, h, if_true]
      rw [unescapeChars_cons]
      simp [ih]
    · have hff : (c == '\\' || c == '-') = false := by simpa using h
      have hc : (c == '\\') = false := by
        cases hb : c == '\\' with
        | true => rw [hb] at h; simp at h
        | false => rfl
      simp only [escapeTemplate, hff, Bool.false_eq_true, if_false]
      rw [unescapeChars_cons, hc]
      simp [ih]

theorem jsSubstring_strip (a b : Char) (xs : List Char) :
    jsSubstring (String.mk (a :: (xs ++ [b]))) 1
      (((String.mk (a :: (xs ++ [b]))).length : Int) - 1) = String.mk xs := by
  have hlen : (String.mk (a :: (xs ++ [b]))).length = xs.length + 2 := by
    simp [String.length]
  simp only [jsSubstring, hlen]
  have h1 : (min (max (1 : Int) 0) ((xs.length + 2 : Nat) : Int)).toNat = 1 := by omega
  have h2 : (min (max (((xs.length + 2 : Nat) : Int) - 1) 0)
      ((xs.length + 2 : Nat) : Int)).toNat = xs.length + 1 := by omega
  rw [h1, h2]
  have hmax : max 1 (xs.length + 1) = xs.length + 1 := by omega
  have hmin : min 1 (xs.length + 1) = 1 := by omega
  rw [hmax, hmin]
  show String.mk (((a :: (xs ++ [b])).take (xs.length + 1)).drop 1) = String.mk xs
  rw [List.take_succ_cons, List.take_left, List.drop_succ_cons, List.drop_zero]

/-- C7: the parse step applied to a fragment node whose first child is a
comment holding the marker-wrapped, escaped template text returns the
original un-escaped text: the two wrapping characters are stripped and
every backslash-escaped sequence collapses to the escaped character — a
round-trip with the (spec-modelled) escaping step. -/
theorem C7_parse_round_trip (s : String) (a b : Char) :
    parseNode ⟨some ⟨8, String.mk (a :: (escapeTemplate s.data ++ [b]))⟩⟩ = some s := by
  cases s with
  | mk data =>
    simp only [parseNode]
    rw [if_neg (by decide)]
    rw [jsSubstring_strip a b (escapeTemplate (String.mk data).data)]
    simp [unescape_escape]

end BigPipe

namespace BigPipe

/-! Helper lemmas about `destroy` and its trace. -/

theorem destroy_placeholders (s : PageletState) (r : Bool) :
    (destroy s r).1.placeholders = none := rfl

theorem destroy_container (s : PageletState) (r : Bool) :
    (destroy s r).1.container = none := rfl

theorem destroy_log (s : PageletState) (r : Bool) :
    (destroy s r).2 =
      (Effect.emit "destroy" [] ::
        (s.listeners.filter (fun l => l.event == "destroy")).map
          (fun l => Effect.callHandler l.handler []))
      ++ (match s.placeholders with
          | none => []
          | some _ => [Effect.domCleanup r])
      ++ (match s.container with
          | none => []
          | some cid => [Effect.sandboxKill cid])
      ++ (if s.substream then
            [Effect.substreamEnd ⟨"end", none, none, none, none, none⟩]
          else [])
      ++ [Effect.pipeFree] := rfl

theorem destroy_no_kill (t : PageletState) (r : Bool) (h : t.container = none) :
    (destroy t r).2.countP isKill = 0 := by
  cases hp : t.placeholders <;> cases hsub : t.substream <;>
    simp [destroy_log, h, hp, hsub, isKill, Function.comp]

theorem destroy_free (t : PageletState) (r : Bool) :
    Effect.pipeFree ∈ (destroy t r).2 := by
  rw [destroy_log]
  simp

theorem destroy_no_setup (t : PageletState) (r : Bool) :
    (destroy t r).2.countP isSetupEffect = 0 := by
  cases hp : t.placeholders <;> cases hc : t.container <;> cases hsub : t.substream <;>
    simp [destroy_log, hp, hc, hsub, isSetupEffect, Function.comp]

/-- C1 counterexample: the claim that a second `destroy` performs no
additional release to the Pool is false on the code.  On the configured
`hero` pagelet, `destroy` followed by a second `destroy` still emits a
`pipe.free` release in the second call's trace: `this.pipe.free(this)` is
unconditional, there is no already-destroyed guard. -/
theorem C1_counterexample :
    Effect.pipeFree ∈ (destroy (destroy heroConfigured true).1 false).2 := by decide

/-- C1 (amended): for every pagelet state and any destroy arguments, the
second of two successive `destroy` calls performs no additional Sandbox
kill (the first call nulls `this.container`), but it does release the
instance to the Pool again: every `destroy` call invokes `pipe.free`. -/
theorem C1_second_destroy (s : PageletState) (r1 r2 : Bool) :
    (destroy (destroy s r1).1 r2).2.countP isKill = 0
    ∧ Effect.pipeFree ∈ (destroy (destroy s r1).1 r2).2 := by
  exact ⟨destroy_no_kill _ r2 (destroy_container s r1), destroy_free _ r2⟩

theorem configure_remove_eq (s : PageletState) (name : String) (d : ConfigData)
    (phs : List String) (h : d.remove = true) :
    configure s name d phs =
      destroy { s with placeholders := some phs, id := d.id, name := name } true := by
  simp [configure, h]

/-- C8: a configuration input with the remove flag set makes `configure`
short-circuit into `destroy(true)` on the freshly identified instance: no
substream is opened, nothing is written to the substream or the
orchestrator, no sandbox container is created and no asset-loading phase
starts; the resulting state has `placeholders` and `container` nulled and
the instance is released to the pool. -/
theorem C8_remove_short_circuit (s : PageletState) (name : String) (d : ConfigData)
    (phs : List String) (h : d.remove = true) :
    configure s name d phs =
      destroy { s with placeholders := some phs, id := d.id, name := name } true
    ∧ (configure s name d phs).2.countP isSetupEffect = 0
    ∧ (configure s name d phs).1.placeholders = none
    ∧ (configure s name d phs).1.container = none
    ∧ Effect.pipeFree ∈ (configure s name d phs).2 := by
  refine ⟨configure_remove_eq s name d phs h, ?_, ?_, ?_, ?_⟩ <;>
    rw [configure_remove_eq s name d phs h]
  · exact destroy_no_setup _ _
  · exact destroy_placeholders _ _
  · exact destroy_container _ _
  · exact destroy_free _ _

/-- C8 witness: the short-circuit at a concrete remove-configuration. -/
theorem C8_witness :
    (⟨none, true, none, none, none, none, none, none⟩ : ConfigData).remove = true
    ∧ (configure pageletInit "gone" ⟨none, true, none, none, none, none, none, none⟩ ["p"] =
        destroy { pageletInit with placeholders := some ["p"], id := none, name := "gone" } true
      ∧ (configure pageletInit "gone" ⟨none, true, none, none, none, none, none, none⟩ ["p"]).2.countP isSetupEffect = 0
      ∧ (configure pageletInit "gone" ⟨none, true, none, none, none, none, none, none⟩ ["p"]).1.placeholders = none
      ∧ (configure pageletInit "gone" ⟨none, true, none, none, none, none, none, none⟩ ["p"]).1.container = none
      ∧ Effect.pipeFree ∈ (configure pageletInit "gone" ⟨none, true, none, none, none, none, none, none⟩ ["p"]).2) :=
  ⟨rfl, C8_remove_short_circuit pageletInit "gone" ⟨none, true, none, none, none, none, none, none⟩ ["p"] rfl⟩

end BigPipe

namespace BigPipe

/-! Helper lemmas about event emission traces. -/

theorem filterMap_some_comp {A B : Type} (f : A → B) (l : List A) :
    List.filterMap (fun a => some (f a)) l = l.map f := by
  induction l with
  | nil => rfl
  | cons a rest ih => simp [List.filterMap_cons, ih]

theorem filterMap_const_none {A B : Type} (l : List A) :
    List.filterMap (fun _ => (none : Option B)) l = [] := by
  induction l with
  | nil => rfl
  | cons a rest ih => simp [List.filterMap_cons, ih]

theorem emitEvent_calls (s : PageletState) (e : String) (a : List Val) :
    handlerCalls (emitEvent s e a).2 =
      (s.listeners.filter (fun l => l.event == e)).map (fun l => (l.handler, a)) := by
  simp [emitEvent, handlerCalls, List.filterMap_map, Function.comp_def,
    filterMap_some_comp]

theorem emitEvent_listeners (s : PageletState) (e : String) (a : List Val) :
    (emitEvent s e a).1.listeners =
      s.listeners.filter (fun l => !(l.event == e && l.once)) := rfl

theorem broadcast_emits (s : PageletState) (event : String) (args : List Val) :
    localEmits (broadcast s event args).2 = [(event, args)]
    ∧ pipeEmits (broadcast s event args).2 =
        [(s.name ++ "::" ++ event, Val.pageletSelf :: args)] := by
  constructor <;>
    simp [broadcast, emitEvent, localEmits, pipeEmits, List.filterMap_map,
      Function.comp_def, filterMap_const_none]

/-- C9: `broadcast` emits the event name with the given arguments on the
pagelet's own listener scope, and emits `<pageletName>::<eventName>` on the
parent page's (pipe's) listener scope with the pagelet instance prepended
to the same arguments; with name `hero` and event `render`, these are
`render` locally and `hero::render` on the parent scope, both carrying the
html as trailing argument. -/
theorem C9_broadcast_dual (s : PageletState) (event : String) (args : List Val) :
    localEmits (broadcast s event args).2 = [(event, args)]
    ∧ pipeEmits (broadcast s event args).2 =
        [(s.name ++ "::" ++ event, Val.pageletSelf :: args)] :=
  broadcast_emits s event args

end BigPipe

namespace BigPipe

/-! Claims C2 and C4. -/

theorem configure_log_counts (s : PageletState) (name : String) (d : ConfigData)
    (phs : List String) (h : d.remove = false) :
    (configure s name d phs).2.countP isOpen = 1
    ∧ (configure s name d phs).2.countP isRegistration = 1 := by
  constructor <;>
    simp [configure, h, broadcast, emitEvent, isOpen, isRegistration, Function.comp_def]

/-- C2 counterexample: the claim that a second `configure` on the same
instance is rejected or has no effect is false on the code.  On the already
configured `hero` pagelet, a second `configure` call's own trace opens a
substream again. -/
theorem C2_counterexample :
    Effect.substreamOpen "hero" ∈ (configure heroConfigured "hero" cfgHero ["ph"]).2 := by
  decide

/-- C2 (amended): `configure` has no reentrancy guard.  Every call with the
remove flag unset performs the full configuration sequence again — it opens
exactly one (new) Substream and writes exactly one (new) registration — so
a second call on the same instance opens a second Substream and writes a
second registration instead of being rejected or a no-op. -/
theorem C2_configure_not_guarded (s : PageletState) (name : String) (d : ConfigData)
    (phs : List String) (h : d.remove = false) :
    ((configure s name d phs).2.countP isOpen = 1
      ∧ (configure s name d phs).2.countP isRegistration = 1)
    ∧ ((configure (configure s name d phs).1 name d phs).2.countP isOpen = 1
      ∧ (configure (configure s name d phs).1 name d phs).2.countP isRegistration = 1) :=
  ⟨configure_log_counts s name d phs h,
    configure_log_counts (configure s name d phs).1 name d phs h⟩

/-- C2 witness: the unguarded double configuration at a concrete input. -/
theorem C2_witness :
    cfgHero.remove = false
    ∧ (((configure pageletInit "hero" cfgHero ["ph"]).2.countP isOpen = 1
      ∧ (configure pageletInit "hero" cfgHero ["ph"]).2.countP isRegistration = 1)
    ∧ ((configure (configure pageletInit "hero" cfgHero ["ph"]).1 "hero" cfgHero ["ph"]).2.countP isOpen = 1
      ∧ (configure (configure pageletInit "hero" cfgHero ["ph"]).1 "hero" cfgHero ["ph"]).2.countP isRegistration = 1)) :=
  ⟨rfl, C2_configure_not_guarded pageletInit "hero" cfgHero ["ph"] rfl⟩

/-- C4: when the asset-loading phase reports an error, the `done` callback
emits exactly one local `error` event — delivered to every listener
registered for `error` on the pagelet instance the parent page holds — and
nothing else: no parent-scope emission, no sandbox execution, and the
state machine does not advance to rendering or initialising (the
placeholder contents are untouched and no `render`, `loaded` or
`initialise` event occurs). -/
theorem C4_asset_error_halts (s : PageletState) (e : Val) (frag : Option FragmentNode) :
    assetsDone s (some e) frag = some (emitEvent s "error" [e])
    ∧ localEmits (emitEvent s "error" [e]).2 = [("error", [e])]
    ∧ handlerCalls (emitEvent s "error" [e]).2 =
        (s.listeners.filter (fun l => l.event == "error")).map (fun l => (l.handler, [e]))
    ∧ pipeEmits (emitEvent s "error" [e]).2 = []
    ∧ (emitEvent s "error" [e]).2.countP isSandboxRun = 0
    ∧ (emitEvent s "error" [e]).1.placeholders = s.placeholders := by
  refine ⟨rfl, ?_, emitEvent_calls s "error" [e], ?_, ?_, rfl⟩ <;>
    simp [emitEvent, localEmits, pipeEmits, isSandboxRun, List.filterMap_map,
      Function.comp_def, filterMap_const_none]

end BigPipe

namespace BigPipe

/-! Claim C10. -/

/-- C10: `render` returns `false` and performs no `render` broadcast (and no
state change) when the html argument is absent or empty or the pagelet has
a zero-length placeholder list; otherwise it replaces every placeholder's
content with the html, broadcasts `render` locally and as
`<name>::render` on the parent scope with the html as trailing argument,
and returns `true`. -/
theorem C10_render_contract (s : PageletState) (phs : List String) (html : Option String)
    (hp : s.placeholders = some phs) :
    ((phs = [] ∨ html = none ∨ html = some "") → render s html = some (s, false, []))
    ∧ (∀ h, html = some h → h ≠ "" → phs ≠ [] →
        ∃ s2 log, render s html = some (s2, true, log)
          ∧ s2.placeholders = some (phs.map (fun _ => h))
          ∧ localEmits log = [("render", [Val.str h])]
          ∧ pipeEmits log = [(s.name ++ "::" ++ "render", [Val.pageletSelf, Val.str h])]) := by
  constructor
  · intro hcase
    rcases hcase with hnil | hnone | hempty
    · subst hnil
      cases html with
      | none => simp [render, hp]
      | some h => simp [render, hp]
    · subst hnone; simp [render, hp]
    · subst hempty; simp [render, hp]
  · intro h hhtml hne hphs
    subst hhtml
    have hlen : (phs.length == 0) = false := by
      simp [List.length_eq_zero, hphs]
    have hemp : (h == "") = false := by simp [hne]
    refine ⟨(broadcast { s with placeholders := some (phs.map (fun _ => h)) }
          "render" [Val.str h]).1,
        (broadcast { s with placeholders := some (phs.map (fun _ => h)) }
          "render" [Val.str h]).2, ?_, ?_, ?_, ?_⟩
    · simp [render, hp, hlen, hemp]
    · rfl
    · exact (broadcast_emits _ "render" [Val.str h]).1
    · exact (broadcast_emits _ "render" [Val.str h]).2

/-- C10 witness: both branches of the render contract at concrete inputs. -/
theorem C10_witness :
    heroConfigured.placeholders = some ["ph"]
    ∧ ((["ph"] = [] ∨ (some "" : Option String) = none ∨ (some "" : Option String) = some "") →
        render heroConfigured (some "") = some (heroConfigured, false, []))
    ∧ (∀ h, (some "" : Option String) = some h → h ≠ "" → (["ph"] : List String) ≠ [] →
        ∃ s2 log, render heroConfigured (some "") = some (s2, true, log)
          ∧ s2.placeholders = some (["ph"].map (fun _ => h))
          ∧ localEmits log = [("render", [Val.str h])]
          ∧ pipeEmits log = [(heroConfigured.name ++ "::" ++ "render", [Val.pageletSelf, Val.str h])]) :=
  ⟨by decide,
    (C10_render_contract heroConfigured ["ph"] (some "") (by decide)).1,
    (C10_render_contract heroConfigured ["ph"] (some "") (by decide)).2⟩

end BigPipe

namespace BigPipe

/-! Claim C3: the sandbox-execution branch of `initialise` is dead. -/

theorem emitEvent_no_sandboxRun (t : PageletState) (e : String) (a : List Val) :
    (emitEvent t e a).2.countP isSandboxRun = 0 := by
  simp [emitEvent, isSandboxRun, Function.comp_def]

theorem broadcast_no_sandboxRun (t : PageletState) (e : String) (a : List Val) :
    (broadcast t e a).2.countP isSandboxRun = 0 := by
  simp [broadcast, emitEvent, isSandboxRun, Function.comp_def]

theorem render_code_and_trace (t : PageletState) (html : Option String)
    (s2 : PageletState) (b : Bool) (l : List Effect)
    (hr : render t html = some (s2, b, l)) :
    s2.code = t.code ∧ l.countP isSandboxRun = 0 := by
  cases hph : t.placeholders with
  | none => simp [render, hph] at hr
  | some phs =>
    cases html with
    | none =>
      simp only [render, hph, Option.some.injEq, Prod.mk.injEq] at hr
      obtain ⟨h1, _h2, h3⟩ := hr
      subst h1; subst h3
      exact ⟨rfl, rfl⟩
    | some h =>
      simp only [render, hph] at hr
      by_cases hc : phs.length == 0 || h == ""
      · rw [if_pos hc] at hr
        simp only [Option.some.injEq, Prod.mk.injEq] at hr
        obtain ⟨h1, _h2, h3⟩ := hr
        subst h1; subst h3
        exact ⟨rfl, rfl⟩
      · rw [if_neg hc] at hr
        simp only [Option.some.injEq, Prod.mk.injEq] at hr
        obtain ⟨h1, _h2, h3⟩ := hr
        subst h1; subst h3
        exact ⟨rfl, broadcast_no_sandboxRun _ "render" [Val.str h]⟩

theorem initialise_no_sandboxRun (t : PageletState) (h : t.code = none) :
    (initialise t).2.countP isSandboxRun = 0 := by
  simp only [initialise]
  have hb : (broadcast t "initialise" []).1.code = none := h
  rw [hb]
  exact broadcast_no_sandboxRun t "initialise" []

theorem assetsDone_no_sandboxRun (t : PageletState) (frag : Option FragmentNode)
    (res : PageletState × List Effect) (hcode : t.code = none)
    (hres : assetsDone t none frag = some res) :
    res.2.countP isSandboxRun = 0 := by
  cases hpl : parseLookup frag with
  | none => simp [assetsDone, hpl] at hres
  | some html =>
    cases hrr : render (emitEvent t "loaded" []).1 html with
    | none => simp [assetsDone, hpl, hrr] at hres
    | some trip =>
      obtain ⟨s2, b, l2⟩ := trip
      simp only [assetsDone, hpl, hrr, Option.some.injEq] at hres
      have hrc := render_code_and_trace _ html s2 b l2 hrr
      have hcode2 : s2.code = none := by
        rw [hrc.1]; exact hcode
      have := initialise_no_sandboxRun s2 hcode2
      rw [← hres]
      simp [List.countP_append, emitEvent_no_sandboxRun, hrc.2, this]

/-- C3: the claim that the Sandbox executes the pagelet's client code
exactly when `run` was supplied is false on the code, and the code
contradicts its own documentation: `configure` stores the client code in
`this.run` (line 84, commented "Pagelet client code"), but `initialise`
tests `this.code` (line 297), a property no code path ever assigns, so
after a successful asset-loading phase no sandbox execution happens even
when `run` was supplied. -/
theorem C3_run_never_sandboxed (s : PageletState) (name : String) (d : ConfigData)
    (phs : List String) (r : String) (frag : Option FragmentNode)
    (res : PageletState × List Effect)
    (hcode : s.code = none) (hrm : d.remove = false) (hrun : d.run = some r)
    (hres : assetsDone (configure s name d phs).1 none frag = some res) :
    (configure s name d phs).1.run = some r
    ∧ (configure s name d phs).1.code = none
    ∧ res.2.countP isSandboxRun = 0 := by
  have hcfg : (configure s name d phs).1.run = d.run
      ∧ (configure s name d phs).1.code = s.code := by
    constructor <;> simp [configure, hrm, broadcast, emitEvent, onceListen]
  refine ⟨hcfg.1.trans hrun, hcfg.2.trans hcode, ?_⟩
  exact assetsDone_no_sandboxRun _ frag res (hcfg.2.trans hcode) hres

/-- C3 witness: the dead sandbox branch at the concrete `run` input. -/
theorem C3_witness :
    (pageletInit.code = none ∧ cfgRun.remove = false ∧ cfgRun.run = some "boot()"
      ∧ assetsDone (configure pageletInit "hero" cfgRun ["ph"]).1 none (some fragX) = some resX)
    ∧ ((configure pageletInit "hero" cfgRun ["ph"]).1.run = some "boot()"
      ∧ (configure pageletInit "hero" cfgRun ["ph"]).1.code = none
      ∧ resX.2.countP isSandboxRun = 0) :=
  ⟨⟨rfl, rfl, rfl, by decide⟩,
    C3_run_never_sandboxed pageletInit "hero" cfgRun ["ph"] "boot()" (some fragX) resX
      rfl rfl rfl (by decide)⟩

end BigPipe

namespace BigPipe

/-! Claim C5: generated correlation ids. -/

theorem lookupStub_set (st : List (String × Nat)) (m : String) (c v : Nat)
    (h : lookupStub st m = some c) :
    lookupStub (setStubCounter st m v) m = some v := by
  induction st with
  | nil => simp [lookupStub] at h
  | cons p rest ih =>
    by_cases hp : p.1 == m
    · have hm : p.1 = m := by simpa using hp
      simp [setStubCounter, lookupStub, List.find?, hp, hm]
    · have h2 : lookupStub rest m = some c := by
        simpa [lookupStub, List.find?, hp] using h
      simpa [setStubCounter, lookupStub, List.find?, hp] using ih h2

theorem invokeStubSeq_spec (method : String) (calls : List (List Val × Nat)) :
    ∀ (s : PageletState) (c : Nat), lookupStub s.stubs method = some c →
    ∃ s2 log, invokeStubSeq s method calls = some (s2, log)
      ∧ writtenIds log =
          (List.range calls.length).map (fun k => method ++ "#" ++ Nat.repr (c + 1 + k))
      ∧ lookupStub s2.stubs method = some (c + calls.length) := by
  induction calls with
  | nil =>
    intro s c h
    exact ⟨s, [], rfl, by simp [writtenIds], by simpa using h⟩
  | cons hd tl ih =>
    intro s c h
    have hstep : invokeStub s method hd.1 hd.2 =
        some (onceListen { s with stubs := setStubCounter s.stubs method (c + 1) }
            ("rpc::" ++ (method ++ "#" ++ Nat.repr (c + 1))) hd.2,
          [Effect.substreamWrite
            ⟨"rpc", some method, some (method ++ "#" ++ Nat.repr (c + 1)),
              some hd.1, none, none⟩]) := by
      simp [invokeStub, h]
    have hs1 : lookupStub (onceListen
        { s with stubs := setStubCounter s.stubs method (c + 1) }
        ("rpc::" ++ (method ++ "#" ++ Nat.repr (c + 1))) hd.2).stubs method
        = some (c + 1) := by
      simpa [onceListen] using lookupStub_set s.stubs method c (c + 1) h
    obtain ⟨s2, log, hseq, hids, hcount⟩ := ih _ (c + 1) hs1
    refine ⟨s2,
      [Effect.substreamWrite
        ⟨"rpc", some method, some (method ++ "#" ++ Nat.repr (c + 1)),
          some hd.1, none, none⟩] ++ log, ?_, ?_, ?_⟩
    · simp only [invokeStubSeq, hstep, hseq]
    · have hw : writtenIds ([Effect.substreamWrite
          ⟨"rpc", some method, some (method ++ "#" ++ Nat.repr (c + 1)),
            some hd.1, none, none⟩] ++ log)
          = (method ++ "#" ++ Nat.repr (c + 1)) :: writtenIds log := by
        simp [writtenIds]
      rw [hw, hids, List.length_cons, List.range_succ_eq_map, List.map_cons,
        List.map_map]
      congr 1
      refine List.map_congr_left ?_
      intro k _
      have harg : c + 1 + 1 + k = c + 1 + (k + 1) := by omega
      simp [Function.comp_def, harg]
    · have hlen : c + 1 + tl.length = c + (hd :: tl).length := by
        simp; omega
      rw [← hlen]
      exact hcount

/-- C5: for a freshly installed stub, a sequence of N invocations of the
generated RPC method writes envelopes whose correlation ids are exactly
`method#1` through `method#N`, in that order; the ids are pairwise distinct
(never reused), and the counter afterwards stands at N, so every later
invocation uses a strictly larger sequence number and a fresh id. -/
theorem C5_rpc_call_ids (s : PageletState) (method : String)
    (calls : List (List Val × Nat)) (h : lookupStub s.stubs method = some 0) :
    ∃ s2 log, invokeStubSeq s method calls = some (s2, log)
      ∧ writtenIds log =
          (List.range calls.length).map (fun k => method ++ "#" ++ Nat.repr (k + 1))
      ∧ (writtenIds log).Nodup
      ∧ lookupStub s2.stubs method = some calls.length := by
  obtain ⟨s2, log, h1, h2, h3⟩ := invokeStubSeq_spec method calls s 0 h
  have hfun : ∀ k ∈ List.range calls.length,
      method ++ "#" ++ Nat.repr (0 + 1 + k) = method ++ "#" ++ Nat.repr (k + 1) := by
    intro k _
    have : 0 + 1 + k = k + 1 := by omega
    rw [this]
  have h2n : writtenIds log =
      (List.range calls.length).map (fun k => method ++ "#" ++ Nat.repr (k + 1)) := by
    rw [h2]
    exact List.map_congr_left hfun
  have hinj : Function.Injective (fun k : Nat => method ++ "#" ++ Nat.repr (k + 1)) := by
    intro i j hij
    have := callId_injective method hij
    omega
  refine ⟨s2, log, h1, h2n, ?_, by simpa using h3⟩
  rw [h2n]
  exact (List.nodup_range _).map hinj

/-- C5 witness: two invocations of the fresh stub `foo` on the configured
`hero` pagelet. -/
theorem C5_witness :
    lookupStub heroConfigured.stubs "foo" = some 0
    ∧ ∃ s2 log, invokeStubSeq heroConfigured "foo" [([Val.str "a"], 1), ([], 2)] = some (s2, log)
      ∧ writtenIds log =
          (List.range 2).map (fun k => "foo" ++ "#" ++ Nat.repr (k + 1))
      ∧ (writtenIds log).Nodup
      ∧ lookupStub s2.stubs "foo" = some 2 :=
  ⟨by decide, C5_rpc_call_ids heroConfigured "foo" [([Val.str "a"], 1), ([], 2)] (by decide)⟩

end BigPipe

namespace BigPipe

/-! Claim C6: one-shot delivery of inbound rpc responses. -/

theorem processor_rpc (t : PageletState) (i : String) (args : List Val) :
    processor t ⟨"rpc", none, some i, some args, none, none⟩ =
      some (emitEvent t ("rpc::" ++ i) args) := by
  simp [processor, jsShow]

/-- C6: when the pagelet's emitter holds exactly one listener for the
correlation event of id `i` — a one-shot handler, as registered by an RPC
stub invocation — an inbound `rpc` envelope with that id invokes exactly
that handler with exactly the carried arguments; the handler is consumed,
so a second identical envelope invokes no handler at all. -/
theorem C6_rpc_one_shot (s : PageletState) (i : String) (hId : Nat) (args : List Val)
    (hl : s.listeners.filter (fun l => l.event == "rpc::" ++ i)
        = [⟨"rpc::" ++ i, hId, true⟩]) :
    ∃ s1 log1 s2 log2,
      processor s ⟨"rpc", none, some i, some args, none, none⟩ = some (s1, log1)
      ∧ handlerCalls log1 = [(hId, args)]
      ∧ processor s1 ⟨"rpc", none, some i, some args, none, none⟩ = some (s2, log2)
      ∧ handlerCalls log2 = [] := by
  refine ⟨(emitEvent s ("rpc::" ++ i) args).1, (emitEvent s ("rpc::" ++ i) args).2,
    _, _, processor_rpc s i args, ?_, processor_rpc _ i args, ?_⟩
  · rw [emitEvent_calls, hl]
    rfl
  · have hnil : (emitEvent s ("rpc::" ++ i) args).1.listeners.filter
        (fun l => l.event == "rpc::" ++ i) = [] := by
      rw [emitEvent_listeners, List.filter_filter]
      rw [List.filter_eq_nil_iff]
      intro l hmem
      by_cases he : l.event == "rpc::" ++ i
      · have hmf : l ∈ s.listeners.filter (fun l => l.event == "rpc::" ++ i) :=
          List.mem_filter.2 ⟨hmem, he⟩
        rw [hl] at hmf
        have hlv : l = ⟨"rpc::" ++ i, hId, true⟩ := by simpa using hmf
        subst hlv
        simp
      · simp [he]
    simp [handlerCalls, hnil, List.filterMap_cons]

/-- C6 witness: with pending one-shot handlers for `foo#1` and `foo#2`, the
envelope for `foo#2` with arguments `(null, 42)` fires exactly handler 2
once; the repeated envelope fires nothing. -/
theorem C6_witness :
    stateRpc.listeners.filter (fun l => l.event == "rpc::" ++ "foo#2")
        = [⟨"rpc::" ++ "foo#2", 2, true⟩]
    ∧ ∃ s1 log1 s2 log2,
      processor stateRpc ⟨"rpc", none, some "foo#2", some [Val.null, Val.num 42], none, none⟩
          = some (s1, log1)
      ∧ handlerCalls log1 = [(2, [Val.null, Val.num 42])]
      ∧ processor s1 ⟨"rpc", none, some "foo#2", some [Val.null, Val.num 42], none, none⟩
          = some (s2, log2)
      ∧ handlerCalls log2 = [] :=
  ⟨by decide,
    C6_rpc_one_shot stateRpc "foo#2" 2 [Val.null, Val.num 42] (by decide)⟩

end BigPipe
